import Mathlib

/-!
Verification development for the multi-source geospatial feature-stack
assembly and sampling engine (`data/scripts/mineral_ai_preprocessor.py`).

The Earth Engine API is modelled shallowly: images are finite lists of
named bands together with a per-band, per-pixel rational value function;
image collections are abstracted by their realized size and the composite
images the pipeline reads from them; the remote backend is a record of
the query functions the script calls.  Deferred-graph semantics are kept:
`select`/`rename` fix band names symbolically (Earth Engine would only
error at realization time), masking is not observable, and band values
are rationals standing for the backend's numeric results.
-/

namespace MineralPrep

/-- Abstract pixel locations; band values vary per pixel. -/
abbrev Pix := Nat

/-- An Earth Engine image: an ordered list of band names with a band/pixel
value function.  Values of bands not in `bands` are junk and never read by
the pipeline under the stated theorems. -/
structure Image where
  bands : List String
  val : String → Pix → ℚ

/-- `ee.Image.constant(q)`: single band named `"constant"`. -/
def Image.constant (q : ℚ) : Image := ⟨["constant"], fun _ _ => q⟩

/-- `img.rename(n)` for the script's single-band uses: the result carries
exactly the one requested name and reads the input's first band. -/
def Image.rename (i : Image) (n : String) : Image :=
  ⟨[n], fun _ p => i.val (i.bands.headD "") p⟩

/-- `img.rename(list)`: positional rename, used for the temporal std-dev
band list. -/
def Image.renameL (i : Image) (ns : List String) : Image :=
  ⟨ns, fun b p =>
    match (ns.zip i.bands).lookup b with
    | some ob => i.val ob p
    | none => 0⟩

/-- `img.select(list)`: the result's schema is exactly the requested list
(deferred-graph semantics; realization of a missing band is outside the
model). -/
def Image.select (i : Image) (bs : List String) : Image := ⟨bs, i.val⟩

/-- First-band value, used when a single-band image is broadcast into a
binary band operation. -/
def Image.val1 (i : Image) (p : Pix) : ℚ := i.val (i.bands.headD "") p

/-- `img.addBands(other)`: appends the other image's bands; on a (never
exercised) name collision the later band wins. -/
def Image.addBands (i o : Image) : Image :=
  ⟨i.bands ++ o.bands, fun b p => if o.bands.contains b then o.val b p else i.val b p⟩

/-- `ee.Image.cat(list)`. -/
def Image.cat (l : List Image) : Image :=
  l.foldr Image.addBands ⟨[], fun _ _ => 0⟩

/-- `img.clip(aoi)`: clipping only masks, which is not observable here. -/
def Image.clip (i : Image) {α : Type} (_aoi : α) : Image := i

/-- Scalar add, e.g. `img.add(1)`. -/
def Image.addC (i : Image) (c : ℚ) : Image := ⟨i.bands, fun b p => i.val b p + c⟩

/-- Scalar divide, e.g. `img.divide(2)`. -/
def Image.divC (i : Image) (c : ℚ) : Image := ⟨i.bands, fun b p => i.val b p / c⟩

/-- `img.abs()`. -/
def Image.abs (i : Image) : Image := ⟨i.bands, fun b p => |i.val b p|⟩

/-- `img.clamp(lo, hi)`. -/
def Image.clamp (i : Image) (lo hi : ℚ) : Image :=
  ⟨i.bands, fun b p => max lo (min hi (i.val b p))⟩

/-- `img.subtract(other)` with the script's single-band right operand. -/
def Image.sub (i o : Image) : Image := ⟨i.bands, fun b p => i.val b p - o.val1 p⟩

/-- `img.add(other)` with the script's single-band right operand. -/
def Image.add (i o : Image) : Image := ⟨i.bands, fun b p => i.val b p + o.val1 p⟩

/-- `img.divide(other)` with the script's single-band right operand.
Rational division is total (`x / 0 = 0`) where Earth Engine would mask. -/
def Image.div (i o : Image) : Image := ⟨i.bands, fun b p => i.val b p / o.val1 p⟩

/-- `img.reduce(ee.Reducer.mean())`: one band named `"mean"`, the mean of
all input bands. -/
def Image.reduceMean (i : Image) : Image :=
  ⟨["mean"], fun _ p => ((i.bands.map (fun b => i.val b p)).sum) / (i.bands.length : ℚ)⟩

/-- `img.where(img.lt(0), 0)` as used on the EMIT summary. -/
def Image.whereLt0 (i : Image) : Image :=
  ⟨i.bands, fun b p => if i.val b p < 0 then 0 else i.val b p⟩

/-- `image.normalizedDifference([a, b])`: one band, `(A - B) / (A + B)`.
Earth Engine names it `"nd"`; the script always renames it. -/
def normalizedDifference (i : Image) (a b : String) : Image :=
  ⟨["nd"], fun _ p => (i.val a p - i.val b p) / (i.val a p + i.val b p)⟩

/-- A boundary feature: a property map (`ADM0_NAME`, `ADM1_NAME`, ...). -/
structure Feature where
  props : String → String

/-- An `ee.FeatureCollection`. -/
structure FC where
  feats : List Feature

/-- An `ee.ImageCollection` as the pipeline observes it: its realized
size and the composite images the script derives from it.  `stdDevImg` is
the image produced by `reduce(ee.Reducer.stdDev())`. -/
structure ICol where
  size : Nat
  median : Image
  mean : Image
  stdDevImg : Image

/-- `collection.map(f)`: size-preserving, composites transformed. -/
def ICol.mapImgs (f : Image → Image) (c : ICol) : ICol :=
  ⟨c.size, f c.median, f c.mean, f c.stdDevImg⟩

/-- `collection.select(bs)`: the std-dev reduction of the selected
collection carries the Earth Engine reducer band names `b + "_stdDev"`. -/
def ICol.select (c : ICol) (bs : List String) : ICol :=
  ⟨c.size, c.median.select bs, c.mean.select bs,
    ⟨bs.map (fun bn => bn ++ "_stdDev"), c.stdDevImg.val⟩⟩

/-- One sampled row: band-value columns plus an optional point geometry. -/
structure Row where
  props : List (String × ℚ)
  geometry : Option (ℚ × ℚ)
deriving DecidableEq

/-- The remote Earth Engine backend as the script calls it.  `getInfo` is
the catalog existence probe (`ee.data.getInfo`), which either succeeds or
raises; `collection id aoi start end` is the bounds- and date-filtered
image collection; `s1Filter` is the extra Sentinel-1 instrument-mode and
polarisation filter chain; `sample` is randomized pixel sampling. -/
structure Backend where
  getInfo : String → Except String Unit
  featureCollection : String → FC
  fileExists : String → Bool
  geojsonToEE : String → FC
  collection : String → FC → String → String → ICol
  s1Filter : ICol → ICol
  image : String → Image
  slope : Image → Image
  aspect : Image → Image
  sample : Image → FC → Int → Nat → Int → List Row

/-- Python exception classes raised by the script. -/
inductive PyError where
  | fileNotFound (msg : String)
  | valueError (msg : String)
  | runtimeError (msg : String)
deriving DecidableEq, Repr

/-- `asset_exists`: returns `True` when `ee.data.getInfo` succeeds; any
backend exception is swallowed and yields `False`. -/
def asset_exists (b : Backend) (asset_id : String) : Bool :=
  match b.getInfo asset_id with
  | Except.ok _ => true
  | Except.error _ => false

/-- `availability_flag(condition)`: constant image 1 or 0. -/
def availability_flag (c : Bool) : Image :=
  if c then Image.constant 1 else Image.constant 0

/-- `safe_band(image, band, default)`: the named band if present,
otherwise a constant image of `default` renamed to that band. -/
def safe_band (image : Image) (band : String) (default : ℚ) : Image :=
  if image.bands.contains band then image.select [band]
  else (Image.constant default).rename band

/-- `safe_normalized_difference(image, (bandA, bandB), name)`.  The
two-element band list of the source is passed as two arguments. -/
def safe_normalized_difference (image : Image) (bandA bandB : String) (name : String) : Image :=
  let availability := image.bands.contains bandA && image.bands.contains bandB
  let nd := normalizedDifference image bandA bandB
  let nd01 := ((nd.addC 1).divC 2).rename name
  if availability then nd01 else (Image.constant 0).rename name

/-- `safe_ratio(image, num_band, den_band, name)`. -/
def safe_ratio (image : Image) (num_band den_band : String) (name : String) : Image :=
  let availability := image.bands.contains num_band && image.bands.contains den_band
  let numerator := safe_band image num_band 0
  let denominator := safe_band image den_band 0
  let ratio := (numerator.sub denominator).div ((numerator.add denominator).addC (1/1000000))
  let ratio01 := ((ratio.addC 1).divC 2).rename name
  if availability then ratio01 else (Image.constant 0).rename name

/-- `mask_sentinel2_clouds`: the QA60 bitwise cloud/cirrus tests only
update the (unobservable) mask; the final `divide(10000)` is modelled on
band values. -/
def mask_sentinel2_clouds (image : Image) : Image :=
  ⟨image.bands, fun b p => image.val b p / 10000⟩

/-- `compute_indices(image)`. -/
def compute_indices (image : Image) : Image :=
  Image.cat
    [safe_normalized_difference image "B8" "B4" "NDVI",
     safe_normalized_difference image "B3" "B8" "NDWI",
     safe_ratio image "B11" "B12" "ClayIndex",
     safe_ratio image "B4" "B2" "IronOxideIndex",
     safe_ratio image "B8" "B11" "SilicaIndex"]

/-- `terrain_features(aoi)`. -/
def terrain_features (b : Backend) (aoi : FC) : Image :=
  let dem := (b.image "USGS/SRTMGL1_003").clip aoi
  let slope := ((b.slope dem).divC 90).rename "slope_norm"
  let aspect := ((b.aspect dem).divC 360).rename "aspect_norm"
  ((dem.rename "elevation").addBands slope).addBands aspect

/-- `sentinel1_features(aoi, start, end)`: radar ratio band, quality
band, and the availability boolean. -/
def sentinel1_features (b : Backend) (aoi : FC) (start finish : String) :
    Image × Image × Bool :=
  if asset_exists b "COPERNICUS/S1_GRD" = false then
    ((Image.constant 0).rename "S1_VV_minus_VH", (Image.constant 0).rename "S1_quality", false)
  else
    let collection := b.s1Filter (b.collection "COPERNICUS/S1_GRD" aoi start finish)
    let availability := decide (0 < collection.size)
    let median := collection.median.clip aoi
    let vv := safe_band median "VV" (-20)
    let vh := safe_band median "VH" (-25)
    let ratio := ((((vv.sub vh).divC 30).addC (1/2)).clamp 0 1).rename "S1_VV_minus_VH"
    let quality := (availability_flag availability).rename "S1_quality"
    (ratio, quality, availability)

/-- `emit_features(aoi, start, end)`: hyperspectral mineral summary band
and the availability boolean. -/
def emit_features (b : Backend) (aoi : FC) (start finish : String) : Image × Bool :=
  if asset_exists b "NASA/EMIT/SurfaceMineralogy" = false then
    ((Image.constant 0).rename "EMIT_mean", false)
  else
    let collection := b.collection "NASA/EMIT/SurfaceMineralogy" aoi start finish
    let availability := decide (0 < collection.size)
    let mean_img := ((collection.mean.clip aoi).reduceMean).rename "EMIT_mean"
    let mean_img2 := mean_img.whereLt0
    (if availability then mean_img2 else (Image.constant 0).rename "EMIT_mean", availability)

/-- `SamplingConfig` (output paths are opaque strings). -/
structure SamplingConfig where
  asset_id : String
  start_date : String
  end_date : String
  bands : List String
  scale : Int
  sample_count : Nat
  random_seed : Int
  include_indices : Bool
  include_terrain : Bool
  include_s1 : Bool
  include_emit : Bool
  include_temporal_stats : Bool
  aoi_level : Int
  aoi_name : String
  aoi_country : String
  aoi_asset : Option String
  geojson : Option String
  output_csv : String
  output_metadata : String

/-- `GAUL_FIELD_BY_LEVEL.get(level, GAUL_FIELD_BY_LEVEL[1])`. -/
def gaulField (level : Int) : String :=
  if level = 0 then "ADM0_NAME"
  else if level = 1 then "ADM1_NAME"
  else if level = 2 then "ADM2_NAME"
  else "ADM1_NAME"

/-- The admin-name filter exactly as `resolve_aoi` applies it: filter by
the level's name field, then by `ADM0_NAME` when `aoi_level > 0` and the
country string is truthy (non-empty). -/
def adminFiltered (cfg : SamplingConfig) (b : Backend) : List Feature :=
  let dataset := "FAO/GAUL/2015/level" ++ toString cfg.aoi_level
  let collection := b.featureCollection dataset
  let byName := collection.feats.filter (fun f => f.props (gaulField cfg.aoi_level) = cfg.aoi_name)
  if 0 < cfg.aoi_level ∧ cfg.aoi_country ≠ "" then
    byName.filter (fun f => f.props "ADM0_NAME" = cfg.aoi_country)
  else byName

/-- The `ValueError` message of the zero-match admin lookup (parameter
interpolation of the source message elided). -/
def gaulNotFoundMsg : String := "No GAUL features found"

/-- The admin-name branch of `resolve_aoi`. -/
def resolve_aoi_admin (cfg : SamplingConfig) (b : Backend) : Except PyError FC :=
  if (adminFiltered cfg b).length = 0 then
    Except.error (PyError.valueError gaulNotFoundMsg)
  else Except.ok ⟨adminFiltered cfg b⟩

/-- `resolve_aoi(config)`.  A set `geojson` path (Python `Path` objects
are always truthy) takes precedence, then a truthy (non-empty)
`aoi_asset`, then the administrative-name lookup. -/
def resolve_aoi (cfg : SamplingConfig) (b : Backend) : Except PyError FC :=
  match cfg.geojson with
  | some path =>
    if b.fileExists path then Except.ok (b.geojsonToEE path)
    else Except.error (PyError.fileNotFound "GeoJSON file not found")
  | none =>
    match cfg.aoi_asset with
    | some asset =>
      if asset = "" then resolve_aoi_admin cfg b
      else Except.ok (b.featureCollection asset)
    | none => resolve_aoi_admin cfg b

/-- Source identifier of the magnetic-anomaly grid. -/
def EMAG2_ID : String := "NOAA/NGDC/EMAG2_2"

/-- Source identifier of the GRACE water-mass grids. -/
def GRACE_ID : String := "NASA/GRACE/MASS_GRIDS"

/-- Source identifier of the SMAP soil-moisture collection. -/
def SMAP_ID : String := "NASA_USDA/HSL/SMAP_soil_moisture"

/-- The primary collection: bounds/date filtered, with the Sentinel-2
cloud mask applied when the configured asset is `COPERNICUS/S2_SR`. -/
def primaryCollection (cfg : SamplingConfig) (b : Backend) (aoi : FC) : ICol :=
  let c := b.collection cfg.asset_id aoi cfg.start_date cfg.end_date
  if cfg.asset_id = "COPERNICUS/S2_SR" then ICol.mapImgs mask_sentinel2_clouds c else c

/-- The boolean conditions whose flag images `build_sampling_stack`
appends to `availability_images`, in append order: primary, then terrain
/ Sentinel-1 / EMIT when enabled, then each of the EMAG2 / GRACE / SMAP
groups when its asset exists. -/
def buildFlags (cfg : SamplingConfig) (b : Backend) (aoi : FC) : List Bool :=
  [decide (0 < (primaryCollection cfg b aoi).size)]
  ++ (if cfg.include_terrain then [true] else [])
  ++ (if cfg.include_s1 then [(sentinel1_features b aoi cfg.start_date cfg.end_date).2.2] else [])
  ++ (if cfg.include_emit then [(emit_features b aoi cfg.start_date cfg.end_date).2] else [])
  ++ (if asset_exists b EMAG2_ID then [true] else [])
  ++ (if asset_exists b GRACE_ID then
        [decide (0 < (b.collection GRACE_ID aoi cfg.start_date cfg.end_date).size)] else [])
  ++ (if asset_exists b SMAP_ID then
        [decide (0 < (b.collection SMAP_ID aoi cfg.start_date cfg.end_date).size)] else [])

/-- Python-dict insertion into the availability report: overwrite the
first (and, as built, only) occurrence of the key in place, append at the
end otherwise. -/
def dictSet (d : List (String × Bool)) (k : String) (v : Bool) : List (String × Bool) :=
  match d with
  | [] => [(k, v)]
  | (k', v') :: t => if k' = k then (k, v) :: t else (k', v') :: dictSet t k v

/-- `ee.ImageCollection(list).sum()`: per-pixel sum across images. -/
def sumImages (l : List Image) : Image :=
  ⟨(l.headD (Image.constant 0)).bands, fun bn p => (l.map (fun i => i.val bn p)).sum⟩

/-- `build_sampling_stack(config, aoi)`: assembles the feature stack and
the per-source availability report (a Python dict, modelled as an
insertion-ordered association list). -/
def build_sampling_stack (cfg : SamplingConfig) (b : Backend) (aoi : FC) :
    Image × List (String × Bool) :=
  let collection := primaryCollection cfg b aoi
  let base_image := collection.median.clip aoi
  let stack0 := base_image.select cfg.bands
  let s1r := sentinel1_features b aoi cfg.start_date cfg.end_date
  let emitr := emit_features b aoi cfg.start_date cfg.end_date
  let graceCol := b.collection GRACE_ID aoi cfg.start_date cfg.end_date
  let smapCol := b.collection SMAP_ID aoi cfg.start_date cfg.end_date
  let derived_images : List Image :=
    (if cfg.include_indices then [compute_indices base_image] else [])
    ++ (if cfg.include_temporal_stats then
          [((collection.select cfg.bands).stdDevImg).renameL
            (cfg.bands.map (fun bn => bn ++ "_stdDev"))] else [])
    ++ (if cfg.include_terrain then [terrain_features b aoi] else [])
    ++ (if cfg.include_s1 then [s1r.1, s1r.2.1] else [])
    ++ (if cfg.include_emit then [emitr.1] else [])
    ++ (if asset_exists b EMAG2_ID then
          [(((b.image EMAG2_ID).clip aoi).abs.divC 200).rename "EMAG2_norm"] else [])
    ++ (if asset_exists b GRACE_ID then
          [((safe_band (graceCol.mean.clip aoi) "lwe_thickness_csr" 0).abs.divC 50).rename
            "GRACE_water"] else [])
    ++ (if asset_exists b SMAP_ID then
          [(((safe_band (smapCol.mean.clip aoi) "susm" 0).divC (3/5)).clamp 0 1).rename
            "SMAP_moisture"] else [])
  let availability_images : List Image := (buildFlags cfg b aoi).map availability_flag
  let rep0 := dictSet [] cfg.asset_id (decide (0 < collection.size))
  let rep1 := if cfg.include_terrain then dictSet rep0 "USGS/SRTMGL1_003" true else rep0
  let rep2 := if cfg.include_s1 then dictSet rep1 "COPERNICUS/S1_GRD" s1r.2.2 else rep1
  let rep3 := if cfg.include_emit then dictSet rep2 "NASA/EMIT/SurfaceMineralogy" emitr.2 else rep2
  let rep4 := dictSet rep3 EMAG2_ID (asset_exists b EMAG2_ID)
  let rep5 := dictSet rep4 GRACE_ID
    (if asset_exists b GRACE_ID then decide (0 < graceCol.size) else false)
  let rep6 := dictSet rep5 SMAP_ID
    (if asset_exists b SMAP_ID then decide (0 < smapCol.size) else false)
  let stack1 := if derived_images.isEmpty then stack0
    else stack0.addBands (Image.cat derived_images)
  let stack2 := if availability_images.isEmpty then stack1
    else stack1.addBands
      (((sumImages availability_images).divC (availability_images.length : ℚ)).rename
        "data_availability")
  (stack2, rep6)

/-- The `RuntimeError` message of empty sampling. -/
def emptySamplingMsg : String :=
  "Sampling returned an empty dataframe. Try increasing the date range or AOI size."

/-- `sample_stack(config, stack, aoi)`: one randomized backend sampling
call; an empty result raises, anything else is returned unchanged. -/
def sample_stack (cfg : SamplingConfig) (b : Backend) (stack : Image) (aoi : FC) :
    Except PyError (List Row) :=
  let rows := b.sample stack aoi cfg.scale cfg.sample_count cfg.random_seed
  if rows.isEmpty then Except.error (PyError.runtimeError emptySamplingMsg)
  else Except.ok rows

/-! ### Helper lemmas -/

/-- Numeric value of an availability flag. -/
def flagValue (c : Bool) : ℚ := if c then 1 else 0

theorem availability_flag_bands (c : Bool) : (availability_flag c).bands = ["constant"] := by
  cases c <;> rfl

theorem availability_flag_val (c : Bool) (bn : String) (p : Pix) :
    (availability_flag c).val bn p = flagValue c := by
  cases c <;> rfl

theorem flagSum_nonneg (l : List Bool) : 0 ≤ (l.map flagValue).sum := by
  induction l with
  | nil => simp
  | cons x t ih =>
    simp only [List.map_cons, List.sum_cons]
    have hx : 0 ≤ flagValue x := by cases x <;> simp [flagValue]
    linarith

theorem flagSum_le_length (l : List Bool) : (l.map flagValue).sum ≤ (l.length : ℚ) := by
  induction l with
  | nil => simp
  | cons x t ih =>
    simp only [List.map_cons, List.sum_cons, List.length_cons]
    have hx : flagValue x ≤ 1 := by cases x <;> simp [flagValue]
    push_cast
    linarith

theorem flagSum_all_true (l : List Bool) (h : ∀ x ∈ l, x = true) :
    (l.map flagValue).sum = (l.length : ℚ) := by
  induction l with
  | nil => simp
  | cons x t ih =>
    have hx : x = true := h x (by simp)
    simp only [List.map_cons, List.sum_cons, List.length_cons, hx]
    rw [ih (fun y hy => h y (by simp [hy]))]
    simp [flagValue]
    ring

theorem flagSum_all_false (l : List Bool) (h : ∀ x ∈ l, x = false) :
    (l.map flagValue).sum = 0 := by
  induction l with
  | nil => simp
  | cons x t ih =>
    have hx : x = false := h x (by simp)
    simp only [List.map_cons, List.sum_cons, hx]
    rw [ih (fun y hy => h y (by simp [hy]))]
    simp [flagValue]

theorem lookup_dictSet_self (d : List (String × Bool)) (k : String) (v : Bool) :
    (dictSet d k v).lookup k = some v := by
  induction d with
  | nil => simp [dictSet, List.lookup]
  | cons a t ih =>
    rcases a with ⟨ak, av⟩
    by_cases h : ak = k
    · simp [dictSet, h, List.lookup]
    · have hb : (k == ak) = false := beq_eq_false_iff_ne.mpr (fun e => h e.symm)
      simp [dictSet, h, List.lookup, hb, ih]

theorem lookup_dictSet_ne (d : List (String × Bool)) (k k' : String) (v : Bool)
    (h : k ≠ k') : (dictSet d k' v).lookup k = d.lookup k := by
  induction d with
  | nil =>
    have hb : (k == k') = false := beq_eq_false_iff_ne.mpr h
    simp [dictSet, List.lookup, hb]
  | cons a t ih =>
    rcases a with ⟨ak, av⟩
    by_cases hak : ak = k'
    · subst hak
      have hb : (k == ak) = false := beq_eq_false_iff_ne.mpr (fun e => h e)
      simp [dictSet, List.lookup, hb]
    · simp only [dictSet, if_neg hak, List.lookup]
      cases hb : (k == ak) <;> simp [hb, ih]

@[simp] theorem Image.addBands_bands (i o : Image) :
    (i.addBands o).bands = i.bands ++ o.bands := rfl

@[simp] theorem Image.rename_bands (i : Image) (n : String) : (i.rename n).bands = [n] := rfl

@[simp] theorem Image.renameL_bands (i : Image) (ns : List String) :
    (i.renameL ns).bands = ns := rfl

@[simp] theorem Image.select_bands (i : Image) (bs : List String) :
    (i.select bs).bands = bs := rfl

@[simp] theorem Image.divC_bands (i : Image) (c : ℚ) : (i.divC c).bands = i.bands := rfl

@[simp] theorem Image.addC_bands (i : Image) (c : ℚ) : (i.addC c).bands = i.bands := rfl

@[simp] theorem Image.abs_bands (i : Image) : i.abs.bands = i.bands := rfl

@[simp] theorem Image.clamp_bands (i : Image) (lo hi : ℚ) :
    (i.clamp lo hi).bands = i.bands := rfl

@[simp] theorem Image.clip_bands (i : Image) {α : Type} (a : α) :
    (i.clip a).bands = i.bands := rfl

@[simp] theorem Image.constant_bands (q : ℚ) : (Image.constant q).bands = ["constant"] := rfl

theorem safe_band_bands (i : Image) (bn : String) (d : ℚ) :
    (safe_band i bn d).bands = [bn] := by
  simp only [safe_band]
  split <;> rfl

theorem safe_normalized_difference_bands (i : Image) (a c n : String) :
    (safe_normalized_difference i a c n).bands = [n] := by
  simp only [safe_normalized_difference]
  split <;> rfl

theorem safe_ratio_bands (i : Image) (a c n : String) :
    (safe_ratio i a c n).bands = [n] := by
  simp only [safe_ratio]
  split <;> rfl

theorem cat_bands (l : List Image) :
    (Image.cat l).bands = (l.map Image.bands).flatten := by
  induction l with
  | nil => rfl
  | cons i t ih =>
    simp only [Image.cat, List.foldr_cons, List.map_cons, List.flatten_cons] at ih ⊢
    simp only [Image.addBands, ih]

theorem compute_indices_bands (i : Image) :
    (compute_indices i).bands
      = ["NDVI", "NDWI", "ClayIndex", "IronOxideIndex", "SilicaIndex"] := by
  simp [compute_indices, cat_bands, safe_normalized_difference_bands, safe_ratio_bands]

theorem terrain_features_bands (b : Backend) (aoi : FC) :
    (terrain_features b aoi).bands = ["elevation", "slope_norm", "aspect_norm"] := by
  simp [terrain_features, Image.addBands, Image.rename, Image.divC, Image.clip]

theorem sentinel1_ratio_bands (b : Backend) (aoi : FC) (s f : String) :
    (sentinel1_features b aoi s f).1.bands = ["S1_VV_minus_VH"] := by
  simp only [sentinel1_features]
  split <;> rfl

theorem sentinel1_quality_bands (b : Backend) (aoi : FC) (s f : String) :
    (sentinel1_features b aoi s f).2.1.bands = ["S1_quality"] := by
  simp only [sentinel1_features]
  split <;> rfl

theorem emit_features_bands (b : Backend) (aoi : FC) (s f : String) :
    (emit_features b aoi s f).1.bands = ["EMIT_mean"] := by
  simp only [emit_features]
  split
  · rfl
  · split <;> rfl

theorem buildFlags_ne_nil (cfg : SamplingConfig) (b : Backend) (aoi : FC) :
    buildFlags cfg b aoi ≠ [] := by
  simp [buildFlags]

theorem addDerived_bands (s : Image) (D : List Image) :
    (if D.isEmpty then s else s.addBands (Image.cat D)).bands
      = s.bands ++ (D.map Image.bands).flatten := by
  cases D with
  | nil => simp
  | cons i t => simp [Image.addBands, cat_bands]

/-- The band-name schema of the assembled stack as a function of the
configuration and the three unconditional catalog probes (magnetic
anomaly, gravity/water mass, soil moisture). -/
def stackBands (cfg : SamplingConfig) (e g s : Bool) : List String :=
  cfg.bands
  ++ ((if cfg.include_indices then
        ["NDVI", "NDWI", "ClayIndex", "IronOxideIndex", "SilicaIndex"] else [])
  ++ ((if cfg.include_temporal_stats then cfg.bands.map (fun bn => bn ++ "_stdDev") else [])
  ++ ((if cfg.include_terrain then ["elevation", "slope_norm", "aspect_norm"] else [])
  ++ ((if cfg.include_s1 then ["S1_VV_minus_VH", "S1_quality"] else [])
  ++ ((if cfg.include_emit then ["EMIT_mean"] else [])
  ++ ((if e then ["EMAG2_norm"] else [])
  ++ ((if g then ["GRACE_water"] else [])
  ++ ((if s then ["SMAP_moisture"] else [])
  ++ ["data_availability"]))))))))

theorem build_bands_eq (cfg : SamplingConfig) (b : Backend) (aoi : FC) :
    (build_sampling_stack cfg b aoi).1.bands
      = stackBands cfg (asset_exists b EMAG2_ID) (asset_exists b GRACE_ID)
          (asset_exists b SMAP_ID) := by
  have hne : buildFlags cfg b aoi ≠ [] := buildFlags_ne_nil cfg b aoi
  simp only [build_sampling_stack, stackBands]
  generalize hF : buildFlags cfg b aoi = F
  rw [hF] at hne
  cases F with
  | nil => exact absurd rfl hne
  | cons x t =>
    simp only [List.map_cons, List.isEmpty_cons, Bool.false_eq_true, if_false,
      Image.addBands_bands, addDerived_bands, Image.select_bands, Image.rename_bands]
    simp [apply_ite (List.map Image.bands), apply_ite List.flatten,
      compute_indices_bands, terrain_features_bands, sentinel1_ratio_bands,
      sentinel1_quality_bands, emit_features_bands]

theorem Image.divC_val (i : Image) (c : ℚ) (bn : String) (p : Pix) :
    (i.divC c).val bn p = i.val bn p / c := rfl

theorem Image.rename_val (i : Image) (n bn : String) (p : Pix) :
    (i.rename n).val bn p = i.val (i.bands.headD "") p := rfl

theorem sumImages_bands (l : List Image) :
    (sumImages l).bands = (l.headD (Image.constant 0)).bands := rfl

theorem sumImages_val (l : List Image) (bn : String) (p : Pix) :
    (sumImages l).val bn p = (l.map (fun i => i.val bn p)).sum := rfl

theorem Image.addBands_val_right (i o : Image) (bn : String) (p : Pix)
    (h : o.bands.contains bn = true) : (i.addBands o).val bn p = o.val bn p := by
  simp only [Image.addBands]
  rw [if_pos h]

/-- The composite-confidence band value: the stack's `data_availability`
band is, at every pixel, the sum of the counted availability flags
divided by their number. -/
theorem build_da_val (cfg : SamplingConfig) (b : Backend) (aoi : FC) (p : Pix) :
    (build_sampling_stack cfg b aoi).1.val "data_availability" p
      = ((buildFlags cfg b aoi).map flagValue).sum
          / ((buildFlags cfg b aoi).length : ℚ) := by
  have hne : buildFlags cfg b aoi ≠ [] := buildFlags_ne_nil cfg b aoi
  simp only [build_sampling_stack]
  generalize hF : buildFlags cfg b aoi = F
  rw [hF] at hne
  cases F with
  | nil => exact absurd rfl hne
  | cons x t =>
    simp only [List.map_cons, List.isEmpty_cons, Bool.false_eq_true, if_false]
    rw [Image.addBands_val_right]
    · simp only [Image.rename_val, Image.divC_val, Image.divC_bands, sumImages_bands,
        sumImages_val, List.headD_cons, availability_flag_bands, List.length_map,
        List.length_cons]
      have hfun : ((fun i => Image.val i "constant" p) ∘ availability_flag) = flagValue := by
        funext c
        simp [Function.comp, availability_flag_val]
      simp only [List.map_cons, List.map_map, List.sum_cons]
      rw [hfun]
      simp [availability_flag_val]
    · simp

theorem build_report_smap (cfg : SamplingConfig) (b : Backend) (aoi : FC) :
    (build_sampling_stack cfg b aoi).2.lookup SMAP_ID
      = some (if asset_exists b SMAP_ID then
          decide (0 < (b.collection SMAP_ID aoi cfg.start_date cfg.end_date).size)
        else false) := by
  simp only [build_sampling_stack]
  rw [lookup_dictSet_self]

theorem build_report_grace (cfg : SamplingConfig) (b : Backend) (aoi : FC) :
    (build_sampling_stack cfg b aoi).2.lookup GRACE_ID
      = some (if asset_exists b GRACE_ID then
          decide (0 < (b.collection GRACE_ID aoi cfg.start_date cfg.end_date).size)
        else false) := by
  simp only [build_sampling_stack]
  rw [lookup_dictSet_ne _ _ _ _ (by decide : GRACE_ID ≠ SMAP_ID), lookup_dictSet_self]

theorem build_report_emag (cfg : SamplingConfig) (b : Backend) (aoi : FC) :
    (build_sampling_stack cfg b aoi).2.lookup EMAG2_ID
      = some (asset_exists b EMAG2_ID) := by
  simp only [build_sampling_stack]
  rw [lookup_dictSet_ne _ _ _ _ (by decide : EMAG2_ID ≠ SMAP_ID),
    lookup_dictSet_ne _ _ _ _ (by decide : EMAG2_ID ≠ GRACE_ID), lookup_dictSet_self]

theorem build_report_primary (cfg : SamplingConfig) (b : Backend) (aoi : FC)
    (h1 : cfg.asset_id ≠ "USGS/SRTMGL1_003") (h2 : cfg.asset_id ≠ "COPERNICUS/S1_GRD")
    (h3 : cfg.asset_id ≠ "NASA/EMIT/SurfaceMineralogy") (h4 : cfg.asset_id ≠ EMAG2_ID)
    (h5 : cfg.asset_id ≠ GRACE_ID) (h6 : cfg.asset_id ≠ SMAP_ID) :
    (build_sampling_stack cfg b aoi).2.lookup cfg.asset_id
      = some (decide (0 < (primaryCollection cfg b aoi).size)) := by
  simp only [build_sampling_stack]
  rw [lookup_dictSet_ne _ _ _ _ h6, lookup_dictSet_ne _ _ _ _ h5,
    lookup_dictSet_ne _ _ _ _ h4]
  by_cases he : cfg.include_emit <;> by_cases hs : cfg.include_s1 <;>
    by_cases ht : cfg.include_terrain <;>
    simp [he, hs, ht, lookup_dictSet_ne _ _ _ _ h3, lookup_dictSet_ne _ _ _ _ h2,
      lookup_dictSet_ne _ _ _ _ h1, lookup_dictSet_self]

/-! ### Concrete fixtures for witnesses and counterexamples -/

/-- A trivial single-band image for dummy backends. -/
def img0 : Image := Image.constant 0

/-- A dummy collection of the given realized size. -/
def icolOf (n : Nat) : ICol := ⟨n, img0, img0, img0⟩

/-- An empty area of interest (its geometry plays no role here). -/
def aoi0 : FC := ⟨[]⟩

/-- Baseline test backend: every catalog probe fails, every collection is
empty, sampling returns nothing. -/
def backend0 : Backend :=
  { getInfo := fun _ => Except.error "unavailable"
    featureCollection := fun _ => ⟨[]⟩
    fileExists := fun _ => false
    geojsonToEE := fun _ => ⟨[]⟩
    collection := fun _ _ _ _ => icolOf 0
    s1Filter := fun c => c
    image := fun _ => img0
    slope := fun _ => img0
    aspect := fun _ => img0
    sample := fun _ _ _ _ _ => [] }

/-- Baseline test config: custom primary asset, one base band, every
optional feature group disabled. -/
def cfg0 : SamplingConfig :=
  { asset_id := "PRIMARY/TEST"
    start_date := "2022-01-01"
    end_date := "2024-12-31"
    bands := ["B4"]
    scale := 30
    sample_count := 5000
    random_seed := 42
    include_indices := false
    include_terrain := false
    include_s1 := false
    include_emit := false
    include_temporal_stats := false
    aoi_level := 1
    aoi_name := "Northern Mindanao"
    aoi_country := "Philippines"
    aoi_asset := none
    geojson := none
    output_csv := "out.csv"
    output_metadata := "out.metadata.json" }

/-- Backend whose primary collection has one scene and nothing else. -/
def bPrim : Backend :=
  { backend0 with collection := fun id _ _ _ => if id = "PRIMARY/TEST" then icolOf 1 else icolOf 0 }

/-- Like `bPrim`, but the magnetic-anomaly asset also exists. -/
def bPrimEmag : Backend :=
  { bPrim with getInfo := fun a => if a = EMAG2_ID then Except.ok () else Except.error "unavailable" }

theorem Image.select_val (i : Image) (bs : List String) : (i.select bs).val = i.val := rfl

theorem Image.addC_val (i : Image) (c : ℚ) (bn : String) (p : Pix) :
    (i.addC c).val bn p = i.val bn p + c := rfl

theorem Image.sub_val (i o : Image) (bn : String) (p : Pix) :
    (i.sub o).val bn p = i.val bn p - o.val1 p := rfl

theorem Image.add_val (i o : Image) (bn : String) (p : Pix) :
    (i.add o).val bn p = i.val bn p + o.val1 p := rfl

theorem Image.div_val (i o : Image) (bn : String) (p : Pix) :
    (i.div o).val bn p = i.val bn p / o.val1 p := rfl

theorem Image.sub_bands (i o : Image) : (i.sub o).bands = i.bands := rfl

theorem Image.add_bands (i o : Image) : (i.add o).bands = i.bands := rfl

theorem Image.div_bands (i o : Image) : (i.div o).bands = i.bands := rfl

theorem Image.val1_def (i : Image) (p : Pix) : i.val1 p = i.val (i.bands.headD "") p := rfl

theorem Image.constant_val (q : ℚ) (bn : String) (p : Pix) :
    (Image.constant q).val bn p = q := rfl

theorem safe_band_of_contains (img : Image) (bn : String) (d : ℚ)
    (h : img.bands.contains bn = true) : safe_band img bn d = img.select [bn] := by
  simp only [safe_band]
  rw [if_pos h]

theorem mem_flag_ite {c : Bool} {x y : Bool}
    (h : x ∈ if c = true then [y] else ([] : List Bool)) : c = true ∧ x = y := by
  by_cases hc : c = true
  · rw [if_pos hc] at h
    exact ⟨hc, List.mem_singleton.mp h⟩
  · rw [if_neg hc] at h
    exact absurd h (List.not_mem_nil x)

theorem buildFlags_all_true (cfg : SamplingConfig) (b : Backend) (aoi : FC)
    (hp : 0 < (primaryCollection cfg b aoi).size)
    (hs1 : cfg.include_s1 = true →
      (sentinel1_features b aoi cfg.start_date cfg.end_date).2.2 = true)
    (hem : cfg.include_emit = true →
      (emit_features b aoi cfg.start_date cfg.end_date).2 = true)
    (hg : asset_exists b GRACE_ID = true →
      0 < (b.collection GRACE_ID aoi cfg.start_date cfg.end_date).size)
    (hsm : asset_exists b SMAP_ID = true →
      0 < (b.collection SMAP_ID aoi cfg.start_date cfg.end_date).size) :
    ∀ x ∈ buildFlags cfg b aoi, x = true := by
  intro x hx
  simp only [buildFlags, List.singleton_append, List.mem_append, List.mem_cons,
    List.not_mem_nil, or_false, false_or] at hx
  rcases hx with ((((((hx | hx) | hx) | hx) | hx) | hx) | hx)
  · rw [hx]
    simpa using hp
  · exact (mem_flag_ite hx).2
  · obtain ⟨hc, hxe⟩ := mem_flag_ite hx
    rw [hxe]
    exact hs1 hc
  · obtain ⟨hc, hxe⟩ := mem_flag_ite hx
    rw [hxe]
    exact hem hc
  · exact (mem_flag_ite hx).2
  · obtain ⟨hc, hxe⟩ := mem_flag_ite hx
    rw [hxe]
    simpa using hg hc
  · obtain ⟨hc, hxe⟩ := mem_flag_ite hx
    rw [hxe]
    simpa using hsm hc

theorem buildFlags_all_false (cfg : SamplingConfig) (b : Backend) (aoi : FC)
    (hp : (primaryCollection cfg b aoi).size = 0)
    (hter : cfg.include_terrain = false)
    (hs1 : cfg.include_s1 = true →
      (sentinel1_features b aoi cfg.start_date cfg.end_date).2.2 = false)
    (hem : cfg.include_emit = true →
      (emit_features b aoi cfg.start_date cfg.end_date).2 = false)
    (hE : asset_exists b EMAG2_ID = false)
    (hg : asset_exists b GRACE_ID = true →
      (b.collection GRACE_ID aoi cfg.start_date cfg.end_date).size = 0)
    (hsm : asset_exists b SMAP_ID = true →
      (b.collection SMAP_ID aoi cfg.start_date cfg.end_date).size = 0) :
    ∀ x ∈ buildFlags cfg b aoi, x = false := by
  intro x hx
  simp only [buildFlags, List.singleton_append, List.mem_append, List.mem_cons,
    List.not_mem_nil, or_false, false_or] at hx
  rcases hx with ((((((hx | hx) | hx) | hx) | hx) | hx) | hx)
  · rw [hx, hp]
    simp
  · exact absurd (mem_flag_ite hx).1 (by simp [hter])
  · obtain ⟨hc, hxe⟩ := mem_flag_ite hx
    rw [hxe]
    exact hs1 hc
  · obtain ⟨hc, hxe⟩ := mem_flag_ite hx
    rw [hxe]
    exact hem hc
  · exact absurd (mem_flag_ite hx).1 (by simp [hE])
  · obtain ⟨hc, hxe⟩ := mem_flag_ite hx
    rw [hxe, hg hc]
    simp
  · obtain ⟨hc, hxe⟩ := mem_flag_ite hx
    rw [hxe, hsm hc]
    simp

/-- The composite confidence as the claim words it: the uniformly
weighted arithmetic mean of ALL availability flags recorded in the
report, one per probed group. -/
def specReportMean (r : List (String × Bool)) : ℚ :=
  ((r.map (fun q => flagValue q.2)).sum) / (r.length : ℚ)

/-- The admin-name filter as the claim words it: filter by the level's
name field, and by the parent-country name whenever `aoi_level > 0`
(with no non-empty-country proviso). -/
def specAdminFiltered (cfg : SamplingConfig) (b : Backend) : List Feature :=
  let collection := b.featureCollection ("FAO/GAUL/2015/level" ++ toString cfg.aoi_level)
  let byName := collection.feats.filter (fun f => f.props (gaulField cfg.aoi_level) = cfg.aoi_name)
  if 0 < cfg.aoi_level then byName.filter (fun f => f.props "ADM0_NAME" = cfg.aoi_country)
  else byName

/-- Config enabling every optional feature group. -/
def cfgAll : SamplingConfig :=
  { cfg0 with
    include_indices := true
    include_terrain := true
    include_s1 := true
    include_emit := true
    include_temporal_stats := true }

/-- Backend where only the Sentinel-1 catalog probe succeeds and only the
Sentinel-1 collection is non-empty. -/
def bS1 : Backend :=
  { backend0 with
    getInfo := fun a => if a = "COPERNICUS/S1_GRD" then Except.ok () else Except.error "unavailable"
    collection := fun id _ _ _ => if id = "COPERNICUS/S1_GRD" then icolOf 3 else icolOf 0 }

/-- Backend where every probe succeeds and every collection is non-empty. -/
def bAll : Backend :=
  { backend0 with
    getInfo := fun _ => Except.ok ()
    collection := fun _ _ _ _ => icolOf 2 }

/-- A GAUL level-1 feature for the Philippines. -/
def feat0 : Feature :=
  ⟨fun s => if s = "ADM1_NAME" then "Northern Mindanao"
    else if s = "ADM0_NAME" then "Philippines" else ""⟩

/-- Backend whose boundary table holds exactly `feat0`. -/
def b6 : Backend := { backend0 with featureCollection := fun _ => ⟨[feat0]⟩ }

/-- Config whose country filter string is empty (falsy in the source). -/
def cfg6 : SamplingConfig := { cfg0 with aoi_country := "" }

/-- A single-band image named `B4` for sampler tests. -/
def img7 : Image := (Image.constant 0).rename "B4"

/-- One concrete sample row carrying the `B4` column and a geometry. -/
def row7 : Row := ⟨[("B4", 1)], some (124, 8)⟩

/-- Backend whose sampler always returns exactly `row7`. -/
def b7 : Backend := { backend0 with sample := fun _ _ _ _ _ => [row7] }

/-- Test image holding bands `A` and `B` with values 3 and 1. -/
def imgAB : Image := ⟨["A", "B"], fun bn _ => if bn = "A" then 3 else 1⟩

/-- Test image holding only band `A`. -/
def imgM : Image := (Image.constant 5).rename "A"

/-- Test image whose bands `A` and `B` are equal everywhere. -/
def imgEq : Image := ⟨["A", "B"], fun _ _ => 2⟩

/-! ### Claim theorems -/

/-- C1, counterexample: with one and the same `SamplingConfig` and AOI,
a backend on which the magnetic-anomaly asset `NOAA/NGDC/EMAG2_2` exists
and one on which it does not produce different band-name sets — the
`EMAG2_norm` band appears only in the first.  The claimed schema
invariance over the magnetic-anomaly, gravity/water-mass and
soil-moisture sources is therefore false. -/
theorem C1_counterexample :
    (build_sampling_stack cfg0 bPrimEmag aoi0).1.bands
      ≠ (build_sampling_stack cfg0 bPrim aoi0).1.bands := by
  decide

/-- C1, amended: the stack's band-name set is determined by the
configuration together with the three unconditional catalog-existence
probes (EMAG2, GRACE, SMAP); it is invariant under everything else at the
backend, in particular under availability of the Sentinel-1 and EMIT
sources and under the contents of every collection. -/
theorem C1_schema_probe_invariance (cfg : SamplingConfig) (aoi : FC) (b1 b2 : Backend)
    (hE : asset_exists b1 EMAG2_ID = asset_exists b2 EMAG2_ID)
    (hG : asset_exists b1 GRACE_ID = asset_exists b2 GRACE_ID)
    (hS : asset_exists b1 SMAP_ID = asset_exists b2 SMAP_ID) :
    (build_sampling_stack cfg b1 aoi).1.bands
      = (build_sampling_stack cfg b2 aoi).1.bands := by
  rw [build_bands_eq, build_bands_eq, hE, hG, hS]

/-- C1, witness: with all optional groups enabled, a backend offering
only Sentinel-1 data and a backend offering nothing yield the same
band-name set. -/
theorem C1_witness :
    (build_sampling_stack cfgAll bS1 aoi0).1.bands
      = (build_sampling_stack cfgAll backend0 aoi0).1.bands :=
  C1_schema_probe_invariance cfgAll aoi0 bS1 backend0 rfl rfl rfl

/-- C2, counterexample: on a backend whose primary filtered collection
is empty, `build_sampling_stack` does not fail — the function body
raises nothing; it records availability `False` for the primary source
and returns a complete stack.  No `SourceUnavailableError` (nor any
exception) exists on this path in the code. -/
theorem C2_counterexample :
    (primaryCollection cfg0 backend0 aoi0).size = 0
  ∧ (build_sampling_stack cfg0 backend0 aoi0).2.lookup "PRIMARY/TEST" = some false
  ∧ (build_sampling_stack cfg0 backend0 aoi0).1.bands = ["B4", "data_availability"] := by
  decide

/-- C2, amended: when the primary filtered collection is empty,
`build_sampling_stack` returns normally with the primary source recorded
unavailable in the report (the asset-id hypotheses keep the primary
entry from being overwritten by a later fixed-id entry of the dict). -/
theorem C2_empty_primary_not_fatal (cfg : SamplingConfig) (b : Backend) (aoi : FC)
    (hsize : (primaryCollection cfg b aoi).size = 0)
    (h1 : cfg.asset_id ≠ "USGS/SRTMGL1_003") (h2 : cfg.asset_id ≠ "COPERNICUS/S1_GRD")
    (h3 : cfg.asset_id ≠ "NASA/EMIT/SurfaceMineralogy") (h4 : cfg.asset_id ≠ EMAG2_ID)
    (h5 : cfg.asset_id ≠ GRACE_ID) (h6 : cfg.asset_id ≠ SMAP_ID) :
    (build_sampling_stack cfg b aoi).2.lookup cfg.asset_id = some false := by
  have h := build_report_primary cfg b aoi h1 h2 h3 h4 h5 h6
  rw [hsize] at h
  simpa using h

/-- C2, witness: a concrete empty-primary run returning the degraded
report entry. -/
theorem C2_witness :
    (build_sampling_stack cfg0 backend0 aoi0).2.lookup cfg0.asset_id = some false :=
  C2_empty_primary_not_fatal cfg0 backend0 aoi0 (by decide) (by decide) (by decide)
    (by decide) (by decide) (by decide) (by decide)

/-- C3, counterexample: with no optional group enabled, a non-empty
primary, and the three always-probed assets absent, the report records
four flags (primary true, EMAG2/GRACE/SMAP false), whose arithmetic mean
is 1/4 — but the `data_availability` band is 1: flags recorded `False`
for absent assets are not counted in the mean. -/
theorem C3_counterexample :
    (build_sampling_stack cfg0 bPrim aoi0).1.val "data_availability" 0
      ≠ specReportMean (build_sampling_stack cfg0 bPrim aoi0).2 := by
  rw [build_da_val, (by decide : buildFlags cfg0 bPrim aoi0 = [true]),
    (by decide : (build_sampling_stack cfg0 bPrim aoi0).2
      = [("PRIMARY/TEST", true), (EMAG2_ID, false), (GRACE_ID, false), (SMAP_ID, false)])]
  norm_num [specReportMean, flagValue]

/-- C3, amended: `data_availability` equals, at every pixel, the
uniformly weighted mean of the COUNTED availability flags: the primary
flag, one flag per enabled terrain/Sentinel-1/EMIT group, and one flag
per always-probed EMAG2/GRACE/SMAP group WHOSE ASSET EXISTS; report
entries recorded `False` for an absent asset contribute nothing. -/
theorem C3_mean_of_counted_flags (cfg : SamplingConfig) (b : Backend) (aoi : FC) (p : Pix) :
    (build_sampling_stack cfg b aoi).1.val "data_availability" p
      = ((buildFlags cfg b aoi).map flagValue).sum
          / ((buildFlags cfg b aoi).length : ℚ) :=
  build_da_val cfg b aoi p

/-- C4: the composite confidence `data_availability` always lies in
[0,1]; it equals 1 when every probed group — primary, Sentinel-1 and
EMIT when enabled (terrain, when enabled, is always available in the
code), and the three always-probed sources — is available, and 0 when
none of them is (which requires terrain to be disabled, since an enabled
terrain group is unconditionally available). -/
theorem C4_confidence_bounds (cfg : SamplingConfig) (b : Backend) (aoi : FC) (p : Pix) :
    (0 ≤ (build_sampling_stack cfg b aoi).1.val "data_availability" p
      ∧ (build_sampling_stack cfg b aoi).1.val "data_availability" p ≤ 1)
  ∧ ((0 < (primaryCollection cfg b aoi).size
      ∧ (cfg.include_s1 = true →
          (sentinel1_features b aoi cfg.start_date cfg.end_date).2.2 = true)
      ∧ (cfg.include_emit = true →
          (emit_features b aoi cfg.start_date cfg.end_date).2 = true)
      ∧ asset_exists b EMAG2_ID = true
      ∧ asset_exists b GRACE_ID = true
      ∧ 0 < (b.collection GRACE_ID aoi cfg.start_date cfg.end_date).size
      ∧ asset_exists b SMAP_ID = true
      ∧ 0 < (b.collection SMAP_ID aoi cfg.start_date cfg.end_date).size) →
      (build_sampling_stack cfg b aoi).1.val "data_availability" p = 1)
  ∧ (((primaryCollection cfg b aoi).size = 0
      ∧ cfg.include_terrain = false
      ∧ (cfg.include_s1 = true →
          (sentinel1_features b aoi cfg.start_date cfg.end_date).2.2 = false)
      ∧ (cfg.include_emit = true →
          (emit_features b aoi cfg.start_date cfg.end_date).2 = false)
      ∧ asset_exists b EMAG2_ID = false
      ∧ (asset_exists b GRACE_ID = true →
          (b.collection GRACE_ID aoi cfg.start_date cfg.end_date).size = 0)
      ∧ (asset_exists b SMAP_ID = true →
          (b.collection SMAP_ID aoi cfg.start_date cfg.end_date).size = 0)) →
      (build_sampling_stack cfg b aoi).1.val "data_availability" p = 0) := by
  have hda := build_da_val cfg b aoi p
  have hlen0 : buildFlags cfg b aoi ≠ [] := buildFlags_ne_nil cfg b aoi
  have hlenpos : 0 < (buildFlags cfg b aoi).length := List.length_pos.mpr hlen0
  have hlenQ : (0 : ℚ) < ((buildFlags cfg b aoi).length : ℚ) := by exact_mod_cast hlenpos
  refine ⟨⟨?_, ?_⟩, ?_, ?_⟩
  · rw [hda]
    exact div_nonneg (flagSum_nonneg _) (le_of_lt hlenQ)
  · rw [hda, div_le_one hlenQ]
    exact flagSum_le_length _
  · rintro ⟨hp, hs1, hem, -, -, hGsz, -, hSsz⟩
    rw [hda, flagSum_all_true _
      (buildFlags_all_true cfg b aoi hp hs1 hem (fun _ => hGsz) (fun _ => hSsz)),
      div_self (ne_of_gt hlenQ)]
  · rintro ⟨hp, hter, hs1, hem, hE, hg, hsm⟩
    rw [hda, flagSum_all_false _
      (buildFlags_all_false cfg b aoi hp hter hs1 hem hE hg hsm), zero_div]

/-- C4, witness: a fully available backend gives confidence 1; a fully
unavailable one gives 0. -/
theorem C4_witness :
    (build_sampling_stack cfg0 bAll aoi0).1.val "data_availability" 0 = 1
  ∧ (build_sampling_stack cfg0 backend0 aoi0).1.val "data_availability" 0 = 0 :=
  ⟨(C4_confidence_bounds cfg0 bAll aoi0 0).2.1 (by decide),
   (C4_confidence_bounds cfg0 backend0 aoi0 0).2.2 (by decide)⟩

/-- C5: `asset_exists` is a total boolean probe: it returns `true`
exactly when the backend existence check succeeds and `false` exactly
when the backend check raises — the exception is swallowed, never
propagated (the probe's return type carries no error case at all). -/
theorem C5_asset_exists_fail_closed (b : Backend) (a : String) :
    (asset_exists b a = true ↔ ∃ u, b.getInfo a = Except.ok u)
  ∧ (asset_exists b a = false ↔ ∃ e, b.getInfo a = Except.error e) := by
  cases h : b.getInfo a with
  | ok u => simp [asset_exists, h]
  | error e => simp [asset_exists, h]

/-- C10: the magnetic-anomaly, gravity/water-mass and soil-moisture
groups are controlled by no `SamplingConfig` enable flag: for every
configuration, backend and AOI the availability report holds an entry
for each of the three identifiers, whose value is exactly the result of
the unconditional probe (asset existence, combined for GRACE/SMAP with
non-emptiness of the filtered collection). -/
theorem C10_always_probed (cfg : SamplingConfig) (b : Backend) (aoi : FC) :
    ((build_sampling_stack cfg b aoi).2.lookup EMAG2_ID = some (asset_exists b EMAG2_ID))
  ∧ ((build_sampling_stack cfg b aoi).2.lookup GRACE_ID
      = some (if asset_exists b GRACE_ID then
          decide (0 < (b.collection GRACE_ID aoi cfg.start_date cfg.end_date).size)
        else false))
  ∧ ((build_sampling_stack cfg b aoi).2.lookup SMAP_ID
      = some (if asset_exists b SMAP_ID then
          decide (0 < (b.collection SMAP_ID aoi cfg.start_date cfg.end_date).size)
        else false)) :=
  ⟨build_report_emag cfg b aoi, build_report_grace cfg b aoi, build_report_smap cfg b aoi⟩

/-- C6, counterexample: at admin level 1 with an empty (falsy) country
string, the claim's filter — "by the requested name AND by parent-country
name whenever level > 0" — matches nothing on a table containing the one
feature (ADM1 "Northern Mindanao", ADM0 "Philippines"), so the claim
demands `NotFoundError`; the code skips the country filter for a falsy
country string and returns the feature without error. -/
theorem C6_counterexample :
    (specAdminFiltered cfg6 b6).length = 0
  ∧ resolve_aoi cfg6 b6 = Except.ok ⟨[feat0]⟩ := by
  constructor
  · decide
  · rfl

/-- C6, amended: in the admin-name branch (no geojson path, falsy asset
id), `resolve_aoi` fails with the zero-match `ValueError` — the error the
spec names `NotFoundError` — exactly when the code's filter (by name,
and by country only when `aoi_level > 0` AND the country string is
non-empty) matches nothing, and returns the filtered (possibly
multi-feature) collection otherwise. -/
theorem C6_admin_lookup (cfg : SamplingConfig) (b : Backend)
    (hg : cfg.geojson = none)
    (ha : cfg.aoi_asset = none ∨ cfg.aoi_asset = some "") :
    ((adminFiltered cfg b).length = 0 →
        resolve_aoi cfg b = Except.error (PyError.valueError gaulNotFoundMsg))
  ∧ ((adminFiltered cfg b).length ≠ 0 →
        resolve_aoi cfg b = Except.ok ⟨adminFiltered cfg b⟩) := by
  have hadm : resolve_aoi cfg b = resolve_aoi_admin cfg b := by
    rcases ha with ha | ha <;> simp [resolve_aoi, hg, ha]
  rw [hadm]
  constructor
  · intro h
    simp [resolve_aoi_admin, h]
  · intro h
    simp [resolve_aoi_admin, h]

/-- C6, witness: an empty boundary table yields the `ValueError`; a
matching table yields the filtered geometry. -/
theorem C6_witness :
    resolve_aoi cfg0 backend0 = Except.error (PyError.valueError gaulNotFoundMsg)
  ∧ resolve_aoi cfg0 b6 = Except.ok ⟨adminFiltered cfg0 b6⟩ :=
  ⟨(C6_admin_lookup cfg0 backend0 rfl (Or.inl rfl)).1 (by decide),
   (C6_admin_lookup cfg0 b6 rfl (Or.inl rfl)).2 (by decide)⟩

/-- C7: `sample_stack` raises the empty-sampling `RuntimeError` — the
spec's `EmptyResultError` — exactly when the single backend sampling call
returns zero rows, and otherwise returns that call's rows unchanged (no
retry); under the backend sampling contract (at most `count` rows, each
carrying every stack band and a geometry) the success result has between
1 and `count` rows with all stack bands and geometry. -/
theorem C7_sampler (cfg : SamplingConfig) (b : Backend) (stack : Image) (aoi : FC) :
    (sample_stack cfg b stack aoi = Except.error (PyError.runtimeError emptySamplingMsg)
       ↔ b.sample stack aoi cfg.scale cfg.sample_count cfg.random_seed = [])
  ∧ ((b.sample stack aoi cfg.scale cfg.sample_count cfg.random_seed).length
        ≤ cfg.sample_count →
     (∀ r ∈ b.sample stack aoi cfg.scale cfg.sample_count cfg.random_seed,
        (∀ bn ∈ stack.bands, (r.props.lookup bn).isSome = true)
          ∧ r.geometry.isSome = true) →
     b.sample stack aoi cfg.scale cfg.sample_count cfg.random_seed ≠ [] →
     ∃ rows, sample_stack cfg b stack aoi = Except.ok rows
       ∧ rows = b.sample stack aoi cfg.scale cfg.sample_count cfg.random_seed
       ∧ 1 ≤ rows.length ∧ rows.length ≤ cfg.sample_count
       ∧ ∀ r ∈ rows, (∀ bn ∈ stack.bands, (r.props.lookup bn).isSome = true)
           ∧ r.geometry.isSome = true) := by
  unfold sample_stack
  generalize hR : b.sample stack aoi cfg.scale cfg.sample_count cfg.random_seed = R
  constructor
  · cases R with
    | nil => simp
    | cons r t => simp
  · intro hle hrows hne
    have hie : R.isEmpty = false := by
      cases R with
      | nil => exact absurd rfl hne
      | cons r t => rfl
    refine ⟨R, by simp [hie], rfl, ?_, hle, hrows⟩
    cases R with
    | nil => exact absurd rfl hne
    | cons r t => simp

/-- C7, witness: an empty-sampling backend raises; a one-row backend
returns that row with all columns and geometry. -/
theorem C7_witness :
    sample_stack cfg0 backend0 img7 aoi0 = Except.error (PyError.runtimeError emptySamplingMsg)
  ∧ (∃ rows, sample_stack cfg0 b7 img7 aoi0 = Except.ok rows
      ∧ rows = b7.sample img7 aoi0 cfg0.scale cfg0.sample_count cfg0.random_seed
      ∧ 1 ≤ rows.length ∧ rows.length ≤ cfg0.sample_count
      ∧ ∀ r ∈ rows, (∀ bn ∈ img7.bands, (r.props.lookup bn).isSome = true)
          ∧ r.geometry.isSome = true) :=
  ⟨(C7_sampler cfg0 backend0 img7 aoi0).1.mpr rfl,
   (C7_sampler cfg0 b7 img7 aoi0).2 (by decide) (by decide) (by decide)⟩

/-- C8: `safe_ratio` yields a constant-zero band named `X` when either
input band is missing, and otherwise the band named `X` holding
`((A - B) / (A + B + 1e-6) + 1) / 2` — the ratio with the 1e-6 guard,
affinely rescaled from [-1,1] to [0,1]. -/
theorem C8_safe_ratio_spec (img : Image) (A B X : String) :
    (¬(img.bands.contains A = true ∧ img.bands.contains B = true) →
       (safe_ratio img A B X).bands = [X]
     ∧ ∀ p, (safe_ratio img A B X).val X p = 0)
  ∧ ((img.bands.contains A = true ∧ img.bands.contains B = true) →
       (safe_ratio img A B X).bands = [X]
     ∧ ∀ p, (safe_ratio img A B X).val X p
         = ((img.val A p - img.val B p)
             / (img.val A p + img.val B p + 1/1000000) + 1) / 2) := by
  constructor
  · intro h
    have hav : (img.bands.contains A && img.bands.contains B) = false := by
      cases hA : img.bands.contains A <;> cases hB : img.bands.contains B <;> simp_all
    simp only [safe_ratio, hav, Bool.false_eq_true, if_false]
    exact ⟨rfl, fun p => rfl⟩
  · rintro ⟨hA, hB⟩
    have hav : (img.bands.contains A && img.bands.contains B) = true := by
      rw [hA, hB]
      rfl
    simp only [safe_ratio, hav, if_true, safe_band_of_contains _ _ _ hA,
      safe_band_of_contains _ _ _ hB]
    refine ⟨rfl, fun p => ?_⟩
    simp [Image.rename_val, Image.divC_val, Image.addC_val, Image.div_val,
      Image.sub_val, Image.add_val, Image.val1_def, Image.select_val,
      Image.div_bands, Image.sub_bands, Image.add_bands, Image.addC_bands,
      Image.select_bands]

/-- C8, witness: a missing-band image gives the zero band; a two-band
image gives the guarded rescaled ratio. -/
theorem C8_witness :
    ((safe_ratio imgM "A" "B" "X").bands = ["X"]
      ∧ (safe_ratio imgM "A" "B" "X").val "X" 0 = 0)
  ∧ ((safe_ratio imgAB "A" "B" "X").bands = ["X"]
      ∧ (safe_ratio imgAB "A" "B" "X").val "X" 0
          = ((imgAB.val "A" 0 - imgAB.val "B" 0)
              / (imgAB.val "A" 0 + imgAB.val "B" 0 + 1/1000000) + 1) / 2) := by
  constructor
  · obtain ⟨h1, h2⟩ := (C8_safe_ratio_spec imgM "A" "B" "X").1 (by decide)
    exact ⟨h1, h2 0⟩
  · obtain ⟨h1, h2⟩ := (C8_safe_ratio_spec imgAB "A" "B" "X").2 (by decide)
    exact ⟨h1, h2 0⟩

/-- C9: when both input bands are present and equal at every pixel,
`safe_normalized_difference` yields the band named `output_name` with
value 1/2 everywhere — the [0,1]-rescaled midpoint of the zero
normalized difference. -/
theorem C9_safe_nd_midpoint (img : Image) (A B n : String)
    (hA : img.bands.contains A = true) (hB : img.bands.contains B = true)
    (heq : ∀ p, img.val A p = img.val B p) :
    (safe_normalized_difference img A B n).bands = [n]
  ∧ ∀ p, (safe_normalized_difference img A B n).val n p = 1/2 := by
  have hav : (img.bands.contains A && img.bands.contains B) = true := by
    rw [hA, hB]
    rfl
  simp only [safe_normalized_difference, hav, if_true]
  refine ⟨rfl, fun p => ?_⟩
  simp [Image.rename_val, Image.divC_val, Image.addC_val, Image.divC_bands,
    Image.addC_bands, normalizedDifference, heq p]

/-- C9, witness: a concrete image with equal `A` and `B` bands yields
the 0.5 band. -/
theorem C9_witness :
    (safe_normalized_difference imgEq "A" "B" "ND").bands = ["ND"]
  ∧ (safe_normalized_difference imgEq "A" "B" "ND").val "ND" 0 = 1/2 := by
  obtain ⟨h1, h2⟩ := C9_safe_nd_midpoint imgEq "A" "B" "ND" (by decide) (by decide)
    (fun p => rfl)
  exact ⟨h1, h2 0⟩

end MineralPrep
